import Mathlib

/-!
Verification of the Pico-Nand-Flasher core against its specification.

Shallow embedding of the host engine (`src/hardware/nand_controller.py`),
the device firmware transport (`pico/main_performance.py`) and the ECC
utilities (`src/utils/ecc.py`).  Byte strings are `List Nat` with every
element below 256; machine integers are `Nat` with explicit masks where
the source masks.
-/

set_option maxRecDepth 100000

namespace PicoNand

/-! ## CRC32 (IEEE 0xEDB88320)

Embeds `NANDFlasher.calculate_chunk_hash` / `NANDFlasher._crc32`
(`pico/main_performance.py`) which is the bit-by-bit form of the host's
`zlib.crc32`: start from 0xFFFFFFFF, xor each byte in, shift through the
reflected polynomial eight times, and complement at the end. -/
def crc32_step (c : Nat) : Nat :=
  if c &&& 1 = 1 then (c >>> 1) ^^^ 0xEDB88320 else c >>> 1

def crc32_update (crc b : Nat) : Nat :=
  (List.range 8).foldl (fun c _ => crc32_step c) (crc ^^^ b)

def crc32 (data : List Nat) : Nat :=
  (data.foldl crc32_update 0xFFFFFFFF) ^^^ 0xFFFFFFFF

/-! ## Little-endian helpers (struct.pack/unpack '<I') -/
def toLE4 (n : Nat) : List Nat :=
  [n % 256, n / 256 % 256, n / 65536 % 256, n / 16777216 % 256]

def fromLE4 (b0 b1 b2 b3 : Nat) : Nat :=
  b0 + 256 * b1 + 65536 * b2 + 16777216 * b3

/-! ## Framed transport

`NANDController._frame` (host encoder): `MAGIC(2) ‖ CMD(1) ‖ LEN(4 LE) ‖
PAYLOAD ‖ CRC32(4 LE)`, CRC over `CMD ‖ LEN ‖ PAYLOAD`, masked to 32 bits.
Magic is the two bytes of `b'PF'` = 0x50 0x46. -/
def NANDController_frame (cmd : Nat) (payload : List Nat) : List Nat :=
  let header := cmd :: toLE4 payload.length
  let crc := crc32 (header ++ payload) &&& 0xFFFFFFFF
  0x50 :: 0x46 :: header ++ payload ++ toLE4 crc

/-- `NANDController._read_frame`'s magic scan: consume bytes, tracking the
last two consumed (`sync`), until they equal `b'PF'`; returns the rest of
the stream.  `prev` is the previously consumed byte (256 = none yet). -/
def seekMagic : List Nat → Nat → Option (List Nat)
  | [], _ => none
  | b :: rest, prev => if prev = 0x50 ∧ b = 0x46 then some rest else seekMagic rest b

/-- Body of `NANDController._read_frame` after the magic was consumed: read
CMD(1)+LEN(4), then LEN payload bytes, then 4 CRC bytes (each `_read_exact`
modelled as "fails unless that many bytes remain"), and drop the frame
unless the received CRC equals CRC32 over `header ‖ payload`. -/
def read_frame_body : List Nat → Option (Nat × List Nat)
  | c :: l0 :: l1 :: l2 :: l3 :: body =>
    let len := fromLE4 l0 l1 l2 l3
    let payload := body.take len
    if payload.length = len then
      let crcb := (body.drop len).take 4
      if h4 : crcb.length = 4 then
        let recv := fromLE4 crcb[0] crcb[1] crcb[2] crcb[3]
        let calcCrc := crc32 ([c, l0, l1, l2, l3] ++ payload) &&& 0xFFFFFFFF
        if recv = calcCrc then some (c, payload) else none
      else none
    else none
  | _ => none

def NANDController_read_frame (input : List Nat) : Option (Nat × List Nat) :=
  match seekMagic input 256 with
  | none => none
  | some rest => read_frame_body rest

/-- `NANDFlasher._read_frame_after_magic` (device firmware,
`pico/main_performance.py`): after the magic was consumed, read
CMD(1)+LEN(4 LE), then `LEN` payload bytes, then 4 CRC bytes, and return
`(cmd, payload)` WITHOUT comparing the CRC (the source comments "CRC is
not strictly validated to keep code small").  A header shorter than five
bytes yields `(none, some [])` (the source's `None, b''`); a payload
`_read_exact` timeout leaves the payload `none`. -/
def NANDFlasher_read_frame_after_magic (input : List Nat) :
    Option Nat × Option (List Nat) :=
  match input with
  | c :: l0 :: l1 :: l2 :: l3 :: body =>
    let len := fromLE4 l0 l1 l2 l3
    let payload := if (body.take len).length = len then some (body.take len) else none
    (some c, payload)
  | _ => (none, some [])

/-! ## ECC utilities (`src/utils/ecc.py`) -/
/-- One shift step of `_crc16_ccitt`'s inner bit loop. -/
def crc16_shift (crc : Nat) : Nat :=
  if crc &&& 0x8000 ≠ 0 then ((crc <<< 1) &&& 0xFFFF) ^^^ 0x1021
  else (crc <<< 1) &&& 0xFFFF

/-- `_crc16_ccitt`: CRC16-CCITT, polynomial 0x1021, initial value 0xFFFF. -/
def _crc16_ccitt (data : List Nat) : Nat :=
  (data.foldl (fun crc b =>
    (List.range 8).foldl (fun c _ => crc16_shift c) (crc ^^^ (b <<< 8))) 0xFFFF) &&& 0xFFFF

/-- Parity (popcount mod 2) of a byte; equals the `parity` table of
`_calc_hamming_512_3byte` for inputs below 256. -/
def parity8 (n : Nat) : Nat :=
  ((n >>> 7) ^^^ (n >>> 6) ^^^ (n >>> 5) ^^^ (n >>> 4) ^^^
    (n >>> 3) ^^^ (n >>> 2) ^^^ (n >>> 1) ^^^ n) &&& 1

/-- Accumulator state of the word loop of `_calc_hamming_512_3byte`:
the overall 32-bit column parity `par` and the row accumulators
`rp4..rp15` (the Python `rp` array entries actually used by the loop). -/
structure HamAcc where
  par : Nat
  rp4 : Nat
  rp5 : Nat
  rp6 : Nat
  rp7 : Nat
  rp8 : Nat
  rp9 : Nat
  rp10 : Nat
  rp11 : Nat
  rp12 : Nat
  rp13 : Nat
  rp14 : Nat
  rp15 : Nat

/-- One iteration of the 64-word loop: load the `i`-th little-endian
32-bit word and distribute it to `par` and to one accumulator of each
`rp` pair, selected by the bits of the word index. -/
def hamStep (b : List Nat) (a : HamAcc) (i : Nat) : HamAcc :=
  let off := i * 4
  let cur := b.getD off 0 ||| (b.getD (off + 1) 0 <<< 8) |||
    (b.getD (off + 2) 0 <<< 16) ||| (b.getD (off + 3) 0 <<< 24)
  let a := { a with par := a.par ^^^ cur }
  let a := if i &&& 0x01 ≠ 0 then { a with rp5 := a.rp5 ^^^ cur }
    else { a with rp4 := a.rp4 ^^^ cur }
  let a := if i &&& 0x02 ≠ 0 then { a with rp7 := a.rp7 ^^^ cur }
    else { a with rp6 := a.rp6 ^^^ cur }
  let a := if i &&& 0x04 ≠ 0 then { a with rp9 := a.rp9 ^^^ cur }
    else { a with rp8 := a.rp8 ^^^ cur }
  let a := if i &&& 0x08 ≠ 0 then { a with rp11 := a.rp11 ^^^ cur }
    else { a with rp10 := a.rp10 ^^^ cur }
  let a := if i &&& 0x10 ≠ 0 then { a with rp13 := a.rp13 ^^^ cur }
    else { a with rp12 := a.rp12 ^^^ cur }
  if i &&& 0x20 ≠ 0 then { a with rp15 := a.rp15 ^^^ cur }
  else { a with rp14 := a.rp14 ^^^ cur }

/-- Fold a 32-bit accumulator to one byte (`v ^= v>>16; v ^= v>>8; v & 0xFF`). -/
def hamFold (v : Nat) : Nat :=
  let v := v ^^^ (v >>> 16)
  let v := v ^^^ (v >>> 8)
  v &&& 0xFF

/-- `_calc_hamming_512_3byte`: 3-byte Hamming ECC of a 512-byte sector
(shorter input is zero-padded, longer is truncated); row/column parities
are accumulated over 64 little-endian 32-bit words, folded to bytes,
packed into three code bytes and inverted so that a blank (all-0xFF)
sector yields 0xFF 0xFF 0xFF. -/
def _calc_hamming_512_3byte (buf : List Nat) : List Nat :=
  let b := if buf.length < 512 then buf ++ List.replicate (512 - buf.length) 0
    else buf.take 512
  let acc := (List.range 64).foldl (hamStep b)
    ⟨0, 0, 0, 0, 0, 0, 0, 0, 0, 0, 0, 0, 0⟩
  let rp4 := hamFold acc.rp4
  let rp5 := hamFold acc.rp5
  let rp6 := hamFold acc.rp6
  let rp7 := hamFold acc.rp7
  let rp8 := hamFold acc.rp8
  let rp9 := hamFold acc.rp9
  let rp10 := hamFold acc.rp10
  let rp11 := hamFold acc.rp11
  let rp12 := hamFold acc.rp12
  let rp13 := hamFold acc.rp13
  let rp14 := hamFold acc.rp14
  let rp15 := hamFold acc.rp15
  let par := acc.par
  let rp3 := ((par >>> 16) ^^^ ((par >>> 16) >>> 8)) &&& 0xFF
  let rp2 := ((par &&& 0xFFFF) ^^^ ((par &&& 0xFFFF) >>> 8)) &&& 0xFF
  let par := par ^^^ (par >>> 16)
  let rp1 := (par >>> 8) &&& 0xFF
  let rp0 := par &&& 0xFF
  let par := (par ^^^ (par >>> 8)) &&& 0xFF
  let c0 := ((parity8 rp7 <<< 7) ||| (parity8 rp6 <<< 6) ||| (parity8 rp5 <<< 5) |||
    (parity8 rp4 <<< 4) ||| (parity8 rp3 <<< 3) ||| (parity8 rp2 <<< 2) |||
    (parity8 rp1 <<< 1) ||| parity8 rp0) &&& 0xFF
  let c1 := ((parity8 rp15 <<< 7) ||| (parity8 rp14 <<< 6) ||| (parity8 rp13 <<< 5) |||
    (parity8 rp12 <<< 4) ||| (parity8 rp11 <<< 3) ||| (parity8 rp10 <<< 2) |||
    (parity8 rp9 <<< 1) ||| parity8 rp8) &&& 0xFF
  let c2 := ((parity8 (par &&& 0xF0) <<< 7) ||| (parity8 (par &&& 0x0F) <<< 6) |||
    (parity8 (par &&& 0xCC) <<< 5) ||| (parity8 (par &&& 0x33) <<< 4) |||
    (parity8 (par &&& 0xAA) <<< 3) ||| (parity8 (par &&& 0x55) <<< 2)) &&& 0xFF
  [c0 ^^^ 0xFF, c1 ^^^ 0xFF, c2 ^^^ 0xFF]

/-- `verify_and_correct`: ECC verification dispatcher.  For `crc16`,
compares CRC16 of the main data with the first two OOB bytes
(little-endian); for `hamming_512_3byte`, enumerates sectors and collects
mismatching zero-based sector indices; no correction is performed. -/
def verify_and_correct (data oob : List Nat) (scheme : String)
    (sector_size bytes_per_sector oob_offset : Nat) : List Nat × List Int :=
  if scheme = "none" then (data, [])
  else if scheme = "crc16" then
    if oob.length < 2 then (data, [])
    else
      let calcv := _crc16_ccitt data
      let stored := oob.getD 0 0 + 256 * oob.getD 1 0
      if calcv ≠ stored then (data, [-1]) else (data, [])
  else if scheme = "hamming_512_3byte" then
    if sector_size = 0 ∨ bytes_per_sector = 0 then (data, [])
    else
      let sectors := data.length / sector_size
      let errors := (List.range sectors).foldl (fun errs s =>
        let e0 := oob_offset + s * bytes_per_sector
        let e1 := e0 + bytes_per_sector
        if e1 > oob.length then errs
        else
          let eccBytes := (oob.drop e0).take bytes_per_sector
          let calcEcc := _calc_hamming_512_3byte ((data.drop (s * sector_size)).take sector_size)
          if 3 ≤ eccBytes.length then
            if calcEcc ≠ eccBytes.take 3 then errs ++ [Int.ofNat s] else errs
          else errs ++ [Int.ofNat s]) []
      (data, errors)
  else (data, [])

/-! ## Host WRITE resume validation (`NANDController.write_nand`) -/
/-- Resume-offset computation of `NANDController.write_nand`: load
`bytes_sent` (reset to 0 when beyond the data), and when a `chunk_crc32`
is present and at least one chunk was sent, recompute CRC32 over
`data[start_offset - chunk_size : start_offset]`; on mismatch restart
from 0 and clear the checkpoint.  Returns `(start_offset, cleared)`. -/
def write_resume_start (data : List Nat) (bytes_sent : Nat) (chunk_crc32 : Option Nat)
    (chunk_size : Nat) : Nat × Bool :=
  let start_offset := if data.length < bytes_sent then 0 else bytes_sent
  match chunk_crc32 with
  | some last_crc =>
    if chunk_size ≤ start_offset then
      let prev_chunk := (data.take start_offset).drop (start_offset - chunk_size)
      let calc_crc := crc32 prev_chunk &&& 0xFFFFFFFF
      if calc_crc ≠ last_crc then (0, true) else (start_offset, false)
    else (start_offset, false)
  | none => (start_offset, false)

/-! ## OOB stripping (`NANDController.read_nand` post-processing) -/
/-- Spare size derived from page size, as hard-coded throughout
`nand_controller.py`: `128 if page_size == 4096 else 64`. -/
def spare_of (page_size : Nat) : Nat := if page_size = 4096 then 128 else 64

def page_total_of (page_size : Nat) : Nat := page_size + spare_of page_size

/-- The strip loop `for i in range(0, len(nand_data), page_total):
out.extend(nand_data[i:i+page_size])`, indexed by remaining iteration
count. -/
def stripN (page_size page_total : Nat) : Nat → List Nat → List Nat
  | 0, _ => []
  | n + 1, l => l.take page_size ++ stripN page_size page_total n (l.drop page_total)

/-- OOB stripping at the end of `NANDController.read_nand`: when OOB is
not requested, the buffer is non-empty and its length is an exact
multiple of `page_size + spare_size`, keep only the first `page_size`
bytes of every record; otherwise return the buffer unchanged. -/
def strip_oob (include_oob : Bool) (page_size : Nat) (nand_data : List Nat) : List Nat :=
  let page_total := page_total_of page_size
  if include_oob = false ∧ nand_data ≠ [] ∧ nand_data.length % page_total = 0 then
    stripN page_size page_total (nand_data.length / page_total) nand_data
  else nand_data

/-! ## Device PROGRESS emission (`NANDFlasher.read_nand_operation`,
`NANDFlasher.erase_nand_operation`) -/
/-- PROGRESS payloads emitted by the device READ loop for pages
`start ≤ page < total`: percent `int((page + 1) * 100 / total_pages)`
(floor division) paired with the page index. -/
def read_progress_frames (start total : Nat) : List (Nat × Nat) :=
  (List.range' start (total - start)).map (fun page => ((page + 1) * 100 / total, page))

/-- PROGRESS payloads emitted by the device ERASE loop for blocks
`start ≤ block < total`: percent `int((block + 1) * 100 / total_blocks)`
paired with the block index. -/
def erase_progress_frames (start total : Nat) : List (Nat × Nat) :=
  (List.range' start (total - start)).map (fun block => ((block + 1) * 100 / total, block))

/-! ## Host WRITE chunk loop events (`NANDController.write_nand`) -/
/-- Externally visible actions of the host WRITE chunk loop: handing a
chunk of `nbytes` to the serial layer, persisting a checkpoint with the
given `bytes_sent`, or reading a device frame (an acknowledgment). -/
inductive HostEvent where
  | send (nbytes : Nat)
  | save (bytes_sent : Nat)
  | recv
  deriving DecidableEq

/-- Number of iterations of `for i in range(start, total, chunk_size)`. -/
def write_chunk_iters (total chunk_size start : Nat) : Nat :=
  (total - start + chunk_size - 1) / chunk_size

/-- Body of the `write_nand` chunk loop, one entry per iteration: the
chunk `data[i:i+chunk_size]` (of `min chunk_size (total - i)` bytes) is
written to serial, and when `i` is a 1 MiB multiple a checkpoint with
`bytes_sent = i + len(chunk)` is persisted immediately afterwards.  The
loop never reads a frame: no `recv` event occurs. -/
def write_chunk_go (total chunk_size : Nat) : Nat → Nat → List HostEvent
  | 0, _ => []
  | n + 1, i =>
    let len := min chunk_size (total - i)
    (if i % (1024 * 1024) = 0 then [HostEvent.send len, HostEvent.save (i + len)]
      else [HostEvent.send len]) ++ write_chunk_go total chunk_size n (i + chunk_size)

/-- Event trace of the `write_nand` chunk loop starting at `start` for
`total` bytes of data in `chunk_size`-byte chunks. -/
def write_nand_chunk_trace (total chunk_size start : Nat) : List HostEvent :=
  write_chunk_go total chunk_size (write_chunk_iters total chunk_size start) start

/-! ## Host READ receive loop (`NANDController.read_nand`, binary mode) -/
/-- Mutable state of the binary READ receive loop: the accumulated DATA
payload buffer, the remaining leading bytes to discard for resume, the
loaded checkpoint's `last_page` and `page_crc32`, and the page counter. -/
structure ReadState where
  buf : List Nat
  toDiscard : Nat
  resumeLast : Nat
  resumeCrc : Option Nat
  pageCounter : Nat
  deriving DecidableEq

/-- The binary receive loop of `NANDController.read_nand`, driven by
successfully decoded frames `(cmd, payload)`: PROGRESS (0x10) only
updates the checkpoint file; COMPLETE (0x12) returns the buffer; ERROR
(0x13) fails; PAGE_CRC (0x16) with an 8-byte payload validates a loaded
resume checkpoint — when the arriving page index equals the stored
`last_page` and the CRCs differ, the checkpoint is cleared, the discard
counter zeroed and the accumulated buffer reset; every other command is
treated as raw page data, first consumed by the discard counter, the
remainder appended (the optional ECC pass only logs and is omitted).
An exhausted stream models `_read_frame` timing out: the loop fails. -/
def readLoop : List (Nat × List Nat) → ReadState → Option (List Nat)
  | [], _ => none
  | (cmd, payload) :: rest, st =>
    if cmd = 0x10 then readLoop rest st
    else if cmd = 0x12 then some st.buf
    else if cmd = 0x13 then none
    else if cmd = 0x16 then
      if 8 ≤ payload.length then
        let page_idx := fromLE4 (payload.getD 0 0) (payload.getD 1 0)
          (payload.getD 2 0) (payload.getD 3 0)
        let crc := fromLE4 (payload.getD 4 0) (payload.getD 5 0)
          (payload.getD 6 0) (payload.getD 7 0)
        match st.resumeCrc with
        | some c =>
          if page_idx = st.resumeLast ∧ c ≠ crc then
            readLoop rest
              { st with buf := [], toDiscard := 0, resumeLast := 0, resumeCrc := none }
          else readLoop rest st
        | none => readLoop rest st
      else readLoop rest st
    else
      let st' :=
        if 0 < st.toDiscard then
          if payload.length ≤ st.toDiscard then
            { st with toDiscard := st.toDiscard - payload.length }
          else
            { st with buf := st.buf ++ payload.drop st.toDiscard, toDiscard := 0 }
        else { st with buf := st.buf ++ payload }
      readLoop rest { st' with pageCounter := st'.pageCounter + 1 }

/-- `NANDController.read_nand` in binary mode: initialise the discard
counter from a loaded READ checkpoint `(last_page, page_crc32)` —
`bytes_to_discard = last_page × (page_size + spare_size)` — run the
receive loop, then apply OOB stripping to the returned buffer. -/
def read_nand_binary (include_oob : Bool) (resume : Option (Nat × Option Nat))
    (page_size : Nat) (frames : List (Nat × List Nat)) : Option (List Nat) :=
  let pt := page_total_of page_size
  let st0 : ReadState :=
    match resume with
    | some (last_page, page_crc) =>
      { buf := [], toDiscard := last_page * pt, resumeLast := last_page,
        resumeCrc := page_crc, pageCounter := 0 }
    | none =>
      { buf := [], toDiscard := 0, resumeLast := 0, resumeCrc := none, pageCounter := 0 }
  match readLoop frames st0 with
  | none => none
  | some buf => some (strip_oob include_oob page_size buf)

/-- Page payloads in the shape of `tests/test_pf_read_resume.py`'s
`build_read_sequence` (`(page + i) % 256`), shortened to four bytes per
page so the closed evaluation stays shallow. -/
def testPagePayload (page : Nat) : List Nat :=
  (List.range 4).map (fun i => (page + i) % 256)

/-- The frame stream of
`test_read_resume_crc_mismatch_starts_from_beginning`: for each of two
pages, PAGE_CRC `{page, crc32(payload)}`, PROGRESS `{percent, page}`,
then the page DATA (cmd 0x02), and finally COMPLETE — received with a
loaded checkpoint `{last_page = 1, page_crc32 = 0xDEADBEEF}`. -/
def mismatchStream : List (Nat × List Nat) :=
  [(0x16, toLE4 0 ++ toLE4 (crc32 (testPagePayload 0) &&& 0xFFFFFFFF)),
   (0x10, [50, 0] ++ toLE4 0),
   (0x02, testPagePayload 0),
   (0x16, toLE4 1 ++ toLE4 (crc32 (testPagePayload 1) &&& 0xFFFFFFFF)),
   (0x10, [100, 0] ++ toLE4 1),
   (0x02, testPagePayload 1),
   (0x12, [])]

/-! ## Theorems -/

/-- CRC32 of the standard check string "123456789" (cf. `tests/test_crc32.py`). -/
example : crc32 [0x31, 0x32, 0x33, 0x34, 0x35, 0x36, 0x37, 0x38, 0x39] = 0xCBF43926 := by
  decide

example : crc32 [] = 0 := by decide

example : crc32 [0xFF] = 0xFF000000 := by decide

example : crc32 [0xDE, 0xAD, 0xBE, 0xEF] = 0x7C9CA35A := by decide

theorem fromLE4_toLE4 (n : Nat) (h : n < 2 ^ 32) :
    fromLE4 (toLE4 n)[0]! (toLE4 n)[1]! (toLE4 n)[2]! (toLE4 n)[3]! = n := by
  simp [toLE4, fromLE4]
  omega

theorem and_mask32 (n : Nat) : n &&& 0xFFFFFFFF = n % 2 ^ 32 := by
  have := Nat.and_pow_two_sub_one_eq_mod n 32
  norm_num at this
  omega

theorem crc32_step_lt {c : Nat} (h : c < 2 ^ 32) : crc32_step c < 2 ^ 32 := by
  have h1 : c >>> 1 < 2 ^ 32 := by
    rw [Nat.shiftRight_eq_div_pow]
    omega
  unfold crc32_step
  split
  · exact Nat.xor_lt_two_pow h1 (by norm_num)
  · exact h1

theorem crc32_update_lt {crc b : Nat} (hc : crc < 2 ^ 32) (hb : b < 256) :
    crc32_update crc b < 2 ^ 32 := by
  unfold crc32_update
  have h0 : crc ^^^ b < 2 ^ 32 := Nat.xor_lt_two_pow hc (by omega)
  have : ∀ l : List Nat, ∀ c, c < 2 ^ 32 →
      (l.foldl (fun c _ => crc32_step c) c) < 2 ^ 32 := by
    intro l
    induction l with
    | nil => intro c hc; simpa using hc
    | cons x xs ih =>
      intro c hc
      exact ih _ (crc32_step_lt hc)
  exact this _ _ h0

theorem crc32_lt (data : List Nat) (h : ∀ b ∈ data, b < 256) : crc32 data < 2 ^ 32 := by
  unfold crc32
  have : ∀ l : List Nat, (∀ b ∈ l, b < 256) → ∀ c, c < 2 ^ 32 →
      l.foldl crc32_update c < 2 ^ 32 := by
    intro l
    induction l with
    | nil => intro _ c hc; simpa using hc
    | cons x xs ih =>
      intro hl c hc
      exact ih (fun b hb => hl b (List.mem_cons_of_mem _ hb))
        _ (crc32_update_lt hc (hl x (List.mem_cons_self _ _)))
  exact Nat.xor_lt_two_pow (this data h _ (by norm_num)) (by norm_num)

example : NANDController_read_frame (NANDController_frame 2 [7, 8]) = some (2, [7, 8]) := by
  decide

theorem fromLE4_digits (n : Nat) (h : n < 2 ^ 32) :
    fromLE4 (n % 256) (n / 256 % 256) (n / 65536 % 256) (n / 16777216 % 256) = n := by
  unfold fromLE4
  omega

theorem take4 (a b c d : Nat) : List.take 4 [a, b, c, d] = [a, b, c, d] := rfl

theorem seekMagic_cons (tail : List Nat) :
    seekMagic (0x50 :: 0x46 :: tail) 256 = some tail := by
  simp [seekMagic]

/-- C2: frame round-trip.  For every command byte `cmd` and every byte
payload (length below 2^32), encoding a frame with the host encoder
(`'PF' ‖ cmd ‖ length LE32 ‖ payload ‖ CRC32 LE32`, CRC32-IEEE over
`cmd ‖ length ‖ payload`) and decoding the resulting byte sequence with
the host frame reader yields exactly `(cmd, payload)`. -/
theorem C2_frame_encode_decode_roundtrip (cmd : Nat) (payload : List Nat)
    (hc : cmd < 256) (hp : ∀ b ∈ payload, b < 256) (hl : payload.length < 2 ^ 32) :
    NANDController_read_frame (NANDController_frame cmd payload) = some (cmd, payload) := by
  have hbytes : ∀ b ∈ (cmd :: toLE4 payload.length) ++ payload, b < 256 := by
    intro b hb
    simp [toLE4] at hb
    rcases hb with h | h | h | h | h | h
    · omega
    · omega
    · omega
    · omega
    · omega
    · exact hp b h
  have hcrc_lt : crc32 ((cmd :: toLE4 payload.length) ++ payload) < 2 ^ 32 :=
    crc32_lt _ hbytes
  unfold NANDController_frame NANDController_read_frame
  simp only [toLE4, List.cons_append, List.nil_append, List.append_assoc]
  rw [seekMagic_cons]
  simp only [read_frame_body]
  simp only [fromLE4_digits payload.length hl]
  simp only [List.take_left, List.drop_left]
  have hKlt :
      (crc32 (cmd :: payload.length % 256 :: payload.length / 256 % 256 ::
          payload.length / 65536 % 256 :: payload.length / 16777216 % 256 :: payload) &&&
        4294967295) < 2 ^ 32 := by
    rw [and_mask32]
    exact Nat.mod_lt _ (by norm_num)
  simp only [if_true, take4, List.length_cons, List.length_nil, dif_pos,
    List.getElem_cons_zero, List.getElem_cons_succ, fromLE4_digits _ hKlt,
    eq_self_iff_true]
  simp [List.cons_append]

theorem C2_frame_encode_decode_roundtrip_witness :
    NANDController_read_frame (NANDController_frame 2 [7, 8]) = some (2, [7, 8]) :=
  C2_frame_encode_decode_roundtrip 2 [7, 8] (by norm_num)
    (by intro b hb; simp at hb; rcases hb with h | h <;> omega) (by norm_num)

/-- C3 counterexample: the device-side binary frame reader delivers a frame
whose trailing CRC (here the four bytes 0 0 0 0) does not match CRC32 over
`header ‖ payload`, so the claim "this holds for both the host-side and
the device-side binary frame readers" fails on the device side. -/
theorem C3_device_reader_delivers_bad_crc_counterexample :
    NANDFlasher_read_frame_after_magic [2, 1, 0, 0, 0, 0xAB, 0, 0, 0, 0] =
        (some 2, some [0xAB]) ∧
      crc32 [2, 1, 0, 0, 0, 0xAB] &&& 0xFFFFFFFF ≠ fromLE4 0 0 0 0 := by
  constructor
  · decide
  · decide

/-- C3 (amended): for every received frame whose trailing 4-byte CRC does
not equal CRC32 over `header ‖ payload`, the HOST-side frame reader
(`NANDController._read_frame`) does not deliver the frame (returns none);
the device-side reader, by contrast, reads the CRC bytes but never
compares them. -/
theorem C3_host_crc_mismatch_rejected (cmd r : Nat) (payload : List Nat)
    (hl : payload.length < 2 ^ 32) (hr : r < 2 ^ 32)
    (hne : r ≠ crc32 (cmd :: toLE4 payload.length ++ payload) &&& 0xFFFFFFFF) :
    NANDController_read_frame
      (0x50 :: 0x46 :: cmd :: toLE4 payload.length ++ payload ++ toLE4 r) = none := by
  unfold NANDController_read_frame
  simp only [toLE4, List.cons_append, List.nil_append, List.append_assoc] at hne ⊢
  rw [seekMagic_cons]
  simp only [read_frame_body]
  simp only [fromLE4_digits payload.length hl]
  simp only [List.take_left, List.drop_left]
  simp only [if_true, take4, List.length_cons, List.length_nil, dif_pos,
    List.getElem_cons_zero, List.getElem_cons_succ, fromLE4_digits r hr,
    eq_self_iff_true]
  simp only [List.cons_append, List.nil_append]
  rw [if_neg hne]

theorem C3_host_crc_mismatch_rejected_witness :
    NANDController_read_frame [0x50, 0x46, 2, 1, 0, 0, 0, 0xAB, 0, 0, 0, 0] = none := by
  have h := C3_host_crc_mismatch_rejected 2 0 [0xAB] (by norm_num) (by norm_num) (by decide)
  simpa [toLE4] using h

example : _crc16_ccitt [] = 0xFFFF := by decide

/-- C10 (implicit): for every main-data buffer, the crc16 verifier returns
the empty error list whenever the supplied OOB buffer is empty or shorter
than two bytes, so a page carrying no stored checksum is never reported
as an error. -/
theorem C10_crc16_short_oob_passes (data oob : List Nat)
    (sector_size bytes_per_sector oob_offset : Nat) (h : oob.length < 2) :
    (verify_and_correct data oob "crc16" sector_size bytes_per_sector oob_offset).2 = [] := by
  unfold verify_and_correct
  rw [if_neg (by decide), if_pos rfl, if_pos h]

theorem C10_crc16_short_oob_passes_witness :
    ([5] : List Nat).length < 2 ∧
      (verify_and_correct [1, 2, 3] [5] "crc16" 512 2 0).2 = [] :=
  ⟨by norm_num, C10_crc16_short_oob_passes [1, 2, 3] [5] 512 2 0 (by norm_num)⟩

/-- C6 counterexample: with `oob_offset = 2` the claim says the two bytes
at offset 2 (here 0x0000) are compared, which differs from
`CRC16-CCITT([]) = 0xFFFF`, so the verifier should report `[-1]`; the
code compares the bytes at offset 0 instead and reports no error. -/
theorem C6_crc16_ignores_oob_offset_counterexample :
    _crc16_ccitt [] ≠ [255, 255, 0, 0].getD 2 0 + 256 * [255, 255, 0, 0].getD 3 0 ∧
      (verify_and_correct [] [255, 255, 0, 0] "crc16" 512 2 2).2 = [] := by
  refine ⟨by decide, by decide⟩

/-- C6 (amended): for every main-data buffer and every OOB buffer of
length ≥ 2, the crc16 verifier compares CRC16-CCITT (poly 0x1021, init
0xFFFF) of the main data with the two bytes at OOB offset 0 interpreted
little-endian — the configured `oob_offset` is ignored by this scheme —
and returns `[-1]` exactly when they differ, `[]` when they match. -/
theorem C6_crc16_checks_offset_zero (data oob : List Nat)
    (sector_size bytes_per_sector oob_offset : Nat) (h2 : 2 ≤ oob.length) :
    (verify_and_correct data oob "crc16" sector_size bytes_per_sector oob_offset).2 =
      if _crc16_ccitt data ≠ oob.getD 0 0 + 256 * oob.getD 1 0 then [-1] else [] := by
  unfold verify_and_correct
  rw [if_neg (by decide), if_pos rfl, if_neg (by omega)]
  by_cases h : _crc16_ccitt data ≠ oob.getD 0 0 + 256 * oob.getD 1 0
  · rw [if_pos h, if_pos h]
  · rw [if_neg h, if_neg h]

theorem C6_crc16_checks_offset_zero_witness :
    (2 : Nat) ≤ ([0, 0] : List Nat).length ∧
      (verify_and_correct [0x31] [0, 0] "crc16" 512 2 0).2 = [-1] := by
  refine ⟨by norm_num, ?_⟩
  rw [C6_crc16_checks_offset_zero [0x31] [0, 0] 512 2 0 (by norm_num)]
  decide

/-- C7 counterexample: the sector obtained from the all-0xFF sector by
changing byte 0 to 0xF0 is a single-byte change to a different value,
yet its computed 3-byte Hamming code is still 0xFF 0xFF 0xFF — the claim
that every single-byte change yields a different code fails here. -/
theorem C7_hamming_byte_change_collision_counterexample :
    _calc_hamming_512_3byte ((List.replicate 512 0xFF).set 0 0xF0) = [0xFF, 0xFF, 0xFF] ∧
      (List.replicate 512 0xFF).set 0 0xF0 ≠ List.replicate 512 (0xFF : Nat) := by
  refine ⟨by decide, by decide⟩

/-- C7 (amended): the 3-byte Hamming code of the all-0xFF 512-byte sector
is exactly 0xFF 0xFF 0xFF, but a single-byte change does not always
change the code: byte 0 ↦ 0xF0 (an even number of bit flips in every
parity class) reproduces 0xFF 0xFF 0xFF, while the single-bit change
byte 0 ↦ 0xFE does alter the code. -/
theorem C7_hamming_all_ff_code :
    _calc_hamming_512_3byte (List.replicate 512 0xFF) = [0xFF, 0xFF, 0xFF] ∧
      _calc_hamming_512_3byte ((List.replicate 512 0xFF).set 0 0xF0) = [0xFF, 0xFF, 0xFF] ∧
      _calc_hamming_512_3byte ((List.replicate 512 0xFF).set 0 0xFE) ≠ [0xFF, 0xFF, 0xFF] := by
  refine ⟨by decide, by decide, by decide⟩

/-- C4: WRITE resume validation.  For every data buffer and loaded WRITE
checkpoint `{bytes_sent, chunk_crc32}` with `chunk_size ≤ bytes_sent ≤
len(data)`: if CRC32 over `data[bytes_sent - chunk_size .. bytes_sent]`
differs from `chunk_crc32` the host clears the checkpoint and starts at
offset 0; if it matches, transmission starts at offset `bytes_sent`. -/
theorem C4_write_resume_validation (data : List Nat) (bytes_sent last_crc chunk_size : Nat)
    (h1 : chunk_size ≤ bytes_sent) (h2 : bytes_sent ≤ data.length) :
    (crc32 ((data.take bytes_sent).drop (bytes_sent - chunk_size)) &&& 0xFFFFFFFF ≠ last_crc →
      write_resume_start data bytes_sent (some last_crc) chunk_size = (0, true)) ∧
    (crc32 ((data.take bytes_sent).drop (bytes_sent - chunk_size)) &&& 0xFFFFFFFF = last_crc →
      write_resume_start data bytes_sent (some last_crc) chunk_size = (bytes_sent, false)) := by
  unfold write_resume_start
  rw [if_neg (by omega)]
  dsimp only
  constructor
  · intro hne
    rw [if_pos h1, if_pos hne]
  · intro heq
    rw [if_pos h1, if_neg (by simpa using heq)]

theorem C4_write_resume_validation_witness :
    write_resume_start [1, 2, 3, 4] 4 (some (crc32 [3, 4] &&& 0xFFFFFFFF)) 2 = (4, false) :=
  (C4_write_resume_validation [1, 2, 3, 4] 4 (crc32 [3, 4] &&& 0xFFFFFFFF) 2
    (by norm_num) (by norm_num)).2 (by decide)

theorem stripN_eq_join (ps pt : Nat) :
    ∀ n (l : List Nat), l.length = n * pt →
      stripN ps pt n l =
        ((List.range n).map (fun i => (l.drop (i * pt)).take ps)).flatten := by
  intro n
  induction n with
  | zero => intro l h; simp [stripN]
  | succ n ih =>
    intro l h
    rw [stripN, List.range_succ_eq_map]
    simp only [List.map_cons, List.flatten_cons, List.map_map]
    have hdrop : (l.drop pt).length = n * pt := by
      simp only [List.length_drop, h]
      ring_nf
      omega
    rw [ih (l.drop pt) hdrop]
    congr 1
    · simp
    · congr 1
      apply List.map_congr_left
      intro i _
      simp only [Function.comp]
      rw [List.drop_drop]
      congr 2
      rw [Nat.succ_mul]
      ring

/-- C5: OOB stripping.  When `include_oob` is false and the buffer length
is an exact multiple of `page_size + spare_size`, the returned dump is
the concatenation of the first `page_size` bytes of each record in
order; when `include_oob` is true or the length is not a multiple, the
buffer is returned unchanged. -/
theorem C5_oob_strip (include_oob : Bool) (ps : Nat) (buf : List Nat) :
    (include_oob = false → buf.length % page_total_of ps = 0 →
      strip_oob include_oob ps buf =
        ((List.range (buf.length / page_total_of ps)).map
          (fun i => (buf.drop (i * page_total_of ps)).take ps)).flatten) ∧
    ((include_oob = true ∨ buf.length % page_total_of ps ≠ 0) →
      strip_oob include_oob ps buf = buf) := by
  have hpt : 0 < page_total_of ps := by
    unfold page_total_of spare_of
    split <;> omega
  constructor
  · intro hoob hmod
    by_cases hnil : buf = []
    · subst hnil
      simp [strip_oob]
    · unfold strip_oob
      rw [if_pos ⟨hoob, hnil, hmod⟩]
      exact stripN_eq_join ps (page_total_of ps) _ buf
        (by rw [Nat.div_mul_cancel (Nat.dvd_of_mod_eq_zero hmod)])
  · intro hother
    unfold strip_oob
    rw [if_neg]
    rintro ⟨hfalse, -, hmul⟩
    rcases hother with h | h
    · rw [h] at hfalse; cases hfalse
    · exact h hmul

theorem C5_oob_strip_witness :
    strip_oob false 4 (List.replicate 68 1) = List.replicate 4 1 := by
  have h := (C5_oob_strip false 4 (List.replicate 68 1)).1 rfl (by decide)
  rw [h]
  decide

theorem progress_frames_get (start total i : Nat)
    (h : i < ((List.range' start (total - start)).map
      (fun u => ((u + 1) * 100 / total, u))).length) :
    ((List.range' start (total - start)).map
      (fun u => ((u + 1) * 100 / total, u))).get ⟨i, h⟩ =
      ((start + i + 1) * 100 / total, start + i) := by
  simp [List.getElem_map, List.getElem_range']

/-- C9: PROGRESS monotonicity.  Within one device operation the PROGRESS
frames are monotonic non-decreasing both in the percent field
(`floor((unit + 1) * 100 / total)`) and in the page/block index, for
every geometry with at least one unit; this holds for the READ loop and
for the ERASE loop. -/
theorem C9_progress_monotone (start total i j : Nat) (htotal : 1 ≤ total) (hij : i ≤ j)
    (hi : i < (read_progress_frames start total).length)
    (hj : j < (read_progress_frames start total).length)
    (hi' : i < (erase_progress_frames start total).length)
    (hj' : j < (erase_progress_frames start total).length) :
    (((read_progress_frames start total).get ⟨i, hi⟩).1 ≤
        ((read_progress_frames start total).get ⟨j, hj⟩).1 ∧
      ((read_progress_frames start total).get ⟨i, hi⟩).2 ≤
        ((read_progress_frames start total).get ⟨j, hj⟩).2) ∧
    (((erase_progress_frames start total).get ⟨i, hi'⟩).1 ≤
        ((erase_progress_frames start total).get ⟨j, hj'⟩).1 ∧
      ((erase_progress_frames start total).get ⟨i, hi'⟩).2 ≤
        ((erase_progress_frames start total).get ⟨j, hj'⟩).2) := by
  unfold read_progress_frames erase_progress_frames at *
  rw [progress_frames_get, progress_frames_get]
  dsimp only
  have hmul : (start + i + 1) * 100 ≤ (start + j + 1) * 100 :=
    Nat.mul_le_mul_right 100 (by omega)
  exact ⟨⟨Nat.div_le_div_right hmul, by omega⟩, ⟨Nat.div_le_div_right hmul, by omega⟩⟩

theorem C9_progress_monotone_witness :
    (1 : Nat) ≤ 2 ∧
      ((read_progress_frames 0 2).get ⟨0, by decide⟩).1 ≤
        ((read_progress_frames 0 2).get ⟨1, by decide⟩).1 :=
  ⟨by norm_num,
    ((C9_progress_monotone 0 2 0 1 (by norm_num) (by norm_num)
      (by decide) (by decide) (by decide) (by decide)).1).1⟩

/-- C8 counterexample: for a 4096-byte WRITE with 4096-byte chunks, the
host trace is exactly `[send 4096, save 4096]` — a checkpoint with
`bytes_sent = 4096` is persisted although no device frame was read
(no acknowledgment event exists anywhere in the trace), refuting
"a checkpoint is persisted only after the unit has been acknowledged". -/
theorem C8_write_checkpoint_before_ack_counterexample :
    write_nand_chunk_trace 4096 4096 0 = [HostEvent.send 4096, HostEvent.save 4096] ∧
      HostEvent.save 4096 ∈ write_nand_chunk_trace 4096 4096 0 ∧
      ∀ e ∈ write_nand_chunk_trace 4096 4096 0, e ≠ HostEvent.recv := by
  refine ⟨by decide, by decide, by decide⟩

theorem write_chunk_go_no_recv (total chunk_size : Nat) :
    ∀ n i, ∀ e ∈ write_chunk_go total chunk_size n i, e ≠ HostEvent.recv := by
  intro n
  induction n with
  | zero => intro i e he; simp [write_chunk_go] at he
  | succ n ih =>
    intro i e he
    simp only [write_chunk_go, List.mem_append] at he
    rcases he with he | he
    · split at he <;> simp_all <;> rcases he with he | he <;> simp [he]
    · exact ih (i + chunk_size) e he

/-- C8 (amended): the WRITE chunk loop of the host persists its resume
checkpoint without any device acknowledgment: for every data length and
chunk size the loop trace contains no frame-read (`recv`) event at all,
and already at loop offset 0 — immediately after the first chunk of
`min chunk_size total` bytes is handed to the serial layer — a
checkpoint with `bytes_sent = min chunk_size total` is persisted. -/
theorem C8_write_checkpoint_without_ack (total chunk_size : Nat)
    (hcs : 0 < chunk_size) (ht : 0 < total) :
    (∀ e ∈ write_nand_chunk_trace total chunk_size 0, e ≠ HostEvent.recv) ∧
      write_nand_chunk_trace total chunk_size 0 =
        HostEvent.send (min chunk_size total) ::
          HostEvent.save (min chunk_size total) ::
            write_chunk_go total chunk_size (write_chunk_iters total chunk_size 0 - 1)
              chunk_size := by
  constructor
  · exact write_chunk_go_no_recv total chunk_size _ 0
  · unfold write_nand_chunk_trace
    have hiter : write_chunk_iters total chunk_size 0 =
        (write_chunk_iters total chunk_size 0 - 1) + 1 := by
      unfold write_chunk_iters
      have h1 : 1 ≤ (total - 0 + chunk_size - 1) / chunk_size := by
        rw [Nat.le_div_iff_mul_le hcs]
        omega
      omega
    rw [hiter]
    simp [write_chunk_go, Nat.sub_zero]

theorem C8_write_checkpoint_without_ack_witness :
    (∀ e ∈ write_nand_chunk_trace 4096 4096 0, e ≠ HostEvent.recv) ∧
      HostEvent.save 4096 ∈ write_nand_chunk_trace 4096 4096 0 := by
  have h := C8_write_checkpoint_without_ack 4096 4096 (by norm_num) (by norm_num)
  refine ⟨h.1, ?_⟩
  rw [h.2]
  simp

/-- C1 (code evaluation at the failing input): on the CRC-mismatch resume
stream of `test_pf_read_resume.py` (two pages, page_size 2048,
checkpoint `{last_page: 1, page_crc32: 0xDEADBEEF}`), `read_nand`
returns only page 1's payload: page 0's DATA was consumed by the resume
discard counter before the mismatching PAGE_CRC arrived, and the buffer
reset on mismatch loses anything accumulated, so the final buffer is
NOT "every page of the stream" (the repo's own test asserts both
pages). -/
theorem C1_read_resume_mismatch_loses_pages :
    read_nand_binary false (some (1, some 0xDEADBEEF)) 2048 mismatchStream =
        some (testPagePayload 1) ∧
      testPagePayload 1 ≠ testPagePayload 0 ++ testPagePayload 1 := by
  refine ⟨by decide, by decide⟩

end PicoNand

